import Mathlib

/-!
Verification development for the AI-Medical-Image-Analysis-System repository.

The Python sources are shallowly embedded: pure functions become Lean
functions on `String`, `ℚ`, `List` and `Option`; the remote Gemini
collaborator is a parameter (`GeminiEnv`) whose call may fail, and Python
exceptions become `Except String`.  `datetime.now()` is passed in as an
explicit `current_time : String` argument.  Python dictionaries keep their
insertion order, so they are embedded as association lists.
-/

namespace MedReport

/-- Round a rational to the nearest integer, ties to even; this is the
rounding used by Python string formatting of a one-decimal percentage. -/
def roundHalfEven (x : ℚ) : ℤ :=
  let f : ℤ := ⌊x⌋
  let r : ℚ := x - f
  if r < 1/2 then f
  else if 1/2 < r then f + 1
  else if f % 2 = 0 then f else f + 1

/-- Embedding of the Python format expression `f"{confidence:.1%}"`:
the confidence rendered as a percentage with one decimal place. -/
def formatPercent (confidence : ℚ) : String :=
  let n : ℤ := roundHalfEven (confidence * 1000)
  if n < 0 then
    "-" ++ toString ((-n) / 10) ++ "." ++ toString ((-n) % 10) ++ "%"
  else
    toString (n / 10) ++ "." ++ toString (n % 10) ++ "%"

/-! ### src/report_generator.py -/

/-- Per-condition narrative guidance (`get_condition_guidance` values). -/
structure ConditionGuidance where
  findings : String
  impression : String
  recommendations : String
deriving DecidableEq

/-- Guidance entry for the COVID label (report_generator.py lines 135-151). -/
def covidGuidance : ConditionGuidance :=
  { findings := "\n            Describe bilateral ground-glass opacities with peripheral and lower lobe distribution.\n            Mention the typical appearance of COVID-19 pneumonia.\n            Note any associated findings like air bronchograms or consolidation.\n            Comment on cardiac silhouette and pleural spaces.\n            "
    impression := "\n            State findings consistent with COVID-19 pneumonia.\n            Mention the bilateral peripheral pattern typical of viral pneumonia.\n            "
    recommendations := "\n            Include RT-PCR testing confirmation, isolation protocols,\n            clinical correlation with symptoms, follow-up imaging timeline,\n            and consideration of chest CT if clinically indicated.\n            " }

/-- Guidance entry for the Viral Pneumonia label (lines 153-169). -/
def viralPneumoniaGuidance : ConditionGuidance :=
  { findings := "\n            Describe bilateral interstitial or mixed alveolar-interstitial infiltrates.\n            Note the diffuse distribution pattern typical of viral etiology.\n            Differentiate from bacterial pneumonia appearance.\n            Comment on any associated findings.\n            "
    impression := "\n            State findings consistent with viral pneumonia.\n            Note the bilateral interstitial pattern.\n            "
    recommendations := "\n            Include supportive care measures, symptom monitoring,\n            follow-up imaging schedule, clinical evaluation,\n            and consideration of antiviral therapy if specific virus identified.\n            " }

/-- Guidance entry for the Lung_Opacity label (lines 171-188). -/
def lungOpacityGuidance : ConditionGuidance :=
  { findings := "\n            Describe the location, extent, and characteristics of the opacities.\n            Consider differential diagnosis including infection, inflammation, or fluid.\n            Note any associated findings like air bronchograms or volume loss.\n            Comment on distribution pattern.\n            "
    impression := "\n            State presence of lung opacities with differential diagnosis.\n            Mention need for clinical correlation.\n            "
    recommendations := "\n            Include clinical correlation with symptoms and vital signs,\n            laboratory studies (CBC, inflammatory markers),\n            consideration of chest CT for better characterization,\n            and appropriate follow-up imaging timeline.\n            " }

/-- Guidance entry for the Normal label (lines 190-206). -/
def normalGuidance : ConditionGuidance :=
  { findings := "\n            Confirm clear lung fields bilaterally with no consolidation.\n            Note normal cardiac silhouette and mediastinal contours.\n            Comment on normal diaphragmatic contours and costophrenic angles.\n            State no acute abnormalities are present.\n            "
    impression := "\n            State normal chest radiograph with no acute cardiopulmonary abnormalities.\n            "
    recommendations := "\n            Include routine follow-up as clinically appropriate,\n            continued clinical monitoring if symptomatic,\n            no immediate imaging follow-up required,\n            and age-appropriate screening recommendations.\n            " }

/-- Embedding of `get_condition_guidance` (lines 131-209): look the label up
in the static table, defaulting to the Normal entry (`guidance.get(prediction,
guidance['Normal'])`). -/
def get_condition_guidance (prediction : String) : ConditionGuidance :=
  let guidance : List (String × ConditionGuidance) :=
    [("COVID", covidGuidance),
     ("Viral Pneumonia", viralPneumoniaGuidance),
     ("Lung_Opacity", lungOpacityGuidance),
     ("Normal", normalGuidance)]
  (guidance.lookup prediction).getD normalGuidance

/-- Python truthiness test `any(patient_info.values())` for string values:
true when some value is a non-empty string. -/
def anyTruthy : List (String × String) → Bool
  | [] => false
  | (_, v) :: rest => (v != "") || anyTruthy rest

/-- The loop in `build_patient_context` (lines 217-219): one line
`"- {key}: {value}"` appended for each field with a truthy value, in order. -/
def contextLines : List (String × String) → List String
  | [] => []
  | (k, v) :: rest =>
    if v = "" then contextLines rest
    else ("- " ++ k ++ ": " ++ v) :: contextLines rest

/-- Embedding of `build_patient_context` (lines 211-221).  `none` stands for
the Python `None` argument; the association list keeps dict insertion order. -/
def build_patient_context (patient_info : Option (List (String × String))) : String :=
  match patient_info with
  | none => "PATIENT INFORMATION: Not provided"
  | some pi =>
    if anyTruthy pi = false then "PATIENT INFORMATION: Not provided"
    else String.intercalate "\n" ("PATIENT INFORMATION:" :: contextLines pi)

/-- Embedding of `create_gemini_prompt` (lines 86-129): the structured prompt
sent to the remote service. -/
def create_gemini_prompt (prediction : String) (confidence : ℚ)
    (patient_context : String) (current_time : String) : String :=
  let condition_guidance := get_condition_guidance prediction
  "\n    You are an expert assistant for a radiologist, skilled at structuring AI-driven analysis into a professional report format.\n\n    An AI image analysis model has processed a chest X-ray and provided the following preliminary result:\n    \n    "
    ++ patient_context
    ++ "\n    \n    AI ANALYSIS RESULTS:\n    - Predicted Condition: " ++ prediction
    ++ "\n    - AI Confidence Level: " ++ formatPercent confidence
    ++ "\n    - Analysis Date: " ++ current_time
    ++ "\n    \n    Based on the predicted condition " ++ prediction
    ++ ", please draft a radiology report using the following guidance and structure. You are to format the information professionally, not to make a diagnosis.\n\n    REPORT STRUCTURE TO FOLLOW:\n    \n    CHEST X-RAY INTERPRETATION REPORT\n    \n    CLINICAL INDICATION: Evaluation of chest for potential abnormalities.\n    \n    TECHNIQUE: Standard chest radiography.\n    \n    FINDINGS: \n    [Using the guidance below, describe the typical radiological findings for "
    ++ prediction ++ ".]\n    Guidance for Findings: " ++ condition_guidance.findings
    ++ "\n    \n    IMPRESSION: \n    [Using the guidance below, write a concise summary for "
    ++ prediction ++ ".]\n    Guidance for Impression: " ++ condition_guidance.impression
    ++ "\n    \n    RECOMMENDATIONS: \n    [Using the guidance below, provide a numbered list of appropriate recommendations for "
    ++ prediction ++ ".]\n    Guidance for Recommendations: " ++ condition_guidance.recommendations
    ++ "\n    \n    DISCLAIMER: This report was generated with the assistance of an AI model and should be reviewed and validated by a qualified radiologist before being used for clinical decision-making.\n    "

/-- A response from the remote Gemini collaborator: its content parts and the
text accessor (`response.parts`, `response.text`). -/
structure GeminiResponse where
  parts : List String
  text : String

/-- Environment of the remote path of `generate_gemini_report`: whether the
`google.generativeai` package imports, the `GOOGLE_API_KEY` value, and the
outcome of `model.generate_content` on a given prompt (`Except.error` for a
raised exception such as a network error). -/
structure GeminiEnv where
  genaiInstalled : Bool
  apiKey : Option String
  callResult : String → Except String GeminiResponse

/-- Embedding of `generate_gemini_report` (lines 25-84).  Each `raise` (and
the rewrapping of inner exceptions) becomes an `Except.error`. -/
def generate_gemini_report (env : GeminiEnv) (prediction : String)
    (confidence : ℚ) (patient_info : Option (List (String × String)))
    (current_time : String) : Except String String :=
  if env.genaiInstalled = false then
    .error "google-generativeai package not installed. Please run pip install google-generativeai"
  else
    match env.apiKey with
    | none => .error "An error occurred with the Gemini API: Google API key not found. Set it in your environment."
    | some _ =>
      let patient_context := build_patient_context patient_info
      let prompt := create_gemini_prompt prediction confidence patient_context current_time
      match env.callResult prompt with
      | .error e => .error ("An error occurred with the Gemini API: " ++ e)
      | .ok response =>
        if response.parts ≠ [] then .ok response.text
        else .error "An error occurred with the Gemini API: Content generation failed despite safety overrides. Check the prompt or model configuration."

/-- Embedding of `generate_fallback_report` (lines 223-314): the static
per-label templates with confidence, patient section and timestamp filled in,
and the diagnostic string for a label outside the table. -/
def generate_fallback_report (prediction : String) (confidence : ℚ)
    (patient_info : Option (List (String × String))) (current_time : String) : String :=
  let patient_section := build_patient_context patient_info
  let pct := formatPercent confidence
  let reports : List (String × String) :=
    [("COVID",
      "CHEST X-RAY INTERPRETATION REPORT\n\n" ++ patient_section
        ++ "\n\nCLINICAL INDICATION: Evaluation for suspected COVID-19 pneumonia\n\nTECHNIQUE: Standard chest radiography\n\nFINDINGS: The chest radiograph demonstrates findings consistent with COVID-19 pneumonia (AI confidence: "
        ++ pct
        ++ "). Bilateral ground-glass opacities are observed, predominantly in the peripheral and lower lobe distribution. The pattern is characteristic of viral pneumonia with COVID-19 features. The cardiac silhouette appears normal in size and contour. No pleural effusion or pneumothorax is identified. The mediastinal contours are unremarkable.\n\nIMPRESSION: Radiographic findings highly suggestive of COVID-19 pneumonia with bilateral peripheral ground-glass opacities.\n\nRECOMMENDATIONS:\n1. RT-PCR testing for COVID-19 confirmation and clinical correlation\n2. Patient isolation per institutional COVID-19 protocols\n3. Follow-up chest imaging in 7-10 days or if clinical condition deteriorates\n4. Consider chest CT for better characterization if symptoms worsen\n5. Monitor oxygen saturation and respiratory status closely\n\nReport generated: "
        ++ current_time),
     ("Viral Pneumonia",
      "CHEST X-RAY INTERPRETATION REPORT\n\n" ++ patient_section
        ++ "\n\nCLINICAL INDICATION: Evaluation for suspected viral pneumonia\n\nTECHNIQUE: Standard chest radiography\n\nFINDINGS: The chest radiograph shows findings consistent with viral pneumonia (AI confidence: "
        ++ pct
        ++ "). Bilateral interstitial infiltrates are observed with a diffuse pattern throughout both lung fields. The appearance suggests viral etiology rather than bacterial pneumonia. The cardiac silhouette is within normal limits. No significant pleural effusion is noted.\n\nIMPRESSION: Findings consistent with viral pneumonia, characterized by bilateral interstitial infiltrates.\n\nRECOMMENDATIONS:\n1. Clinical correlation with symptoms and vital signs\n2. Supportive care and symptomatic treatment as indicated\n3. Follow-up chest radiograph in 7-10 days to assess progression\n4. Consider viral studies if specific pathogen identification needed\n5. Monitor for complications and respiratory deterioration\n\nReport generated: "
        ++ current_time),
     ("Lung_Opacity",
      "CHEST X-RAY INTERPRETATION REPORT\n\n" ++ patient_section
        ++ "\n\nCLINICAL INDICATION: Evaluation of lung opacities\n\nTECHNIQUE: Standard chest radiography\n\nFINDINGS: The chest radiograph reveals lung opacities (AI confidence: "
        ++ pct
        ++ "). Areas of increased density are noted, suggesting possible infectious process, inflammatory changes, or fluid accumulation. The distribution and characteristics require clinical correlation for definitive diagnosis. The cardiac silhouette appears normal. Costophrenic angles are preserved.\n\nIMPRESSION: Lung opacities present with differential diagnosis including pneumonia, pulmonary edema, or inflammatory process.\n\nRECOMMENDATIONS:\n1. Clinical correlation with patient symptoms, vital signs, and physical examination\n2. Complete blood count and inflammatory markers (CRP, ESR, procalcitonin)\n3. Consider chest CT for better characterization of opacities\n4. Follow-up imaging in 48-72 hours to assess response to treatment\n5. Appropriate antimicrobial therapy if infectious etiology suspected\n\nReport generated: "
        ++ current_time),
     ("Normal",
      "CHEST X-RAY INTERPRETATION REPORT\n\n" ++ patient_section
        ++ "\n\nCLINICAL INDICATION: Routine chest evaluation\n\nTECHNIQUE: Standard chest radiography\n\nFINDINGS: The chest radiograph appears normal (AI confidence: "
        ++ pct
        ++ "). The lungs are clear bilaterally with no evidence of consolidation, pneumothorax, or pleural effusion. The cardiac silhouette is normal in size and configuration. The mediastinal contours are unremarkable. The diaphragmatic contours are normal and the costophrenic angles are sharp.\n\nIMPRESSION: Normal chest radiograph. No acute cardiopulmonary abnormalities detected.\n\nRECOMMENDATIONS:\n1. No immediate follow-up imaging required unless clinically indicated\n2. Continue routine health maintenance and age-appropriate screening\n3. Return for imaging if respiratory symptoms develop\n4. Clinical follow-up as deemed appropriate by treating physician\n\nReport generated: "
        ++ current_time)]
  match reports.lookup prediction with
  | some report => report
  | none => "Report generation error for condition: " ++ prediction

/-- Embedding of `generate_report` (lines 5-23): try the Gemini path, and on
any exception fall back to the template report. -/
def generate_report (env : GeminiEnv) (prediction : String) (confidence : ℚ)
    (patient_info : Option (List (String × String))) (current_time : String) : String :=
  match generate_gemini_report env prediction confidence patient_info current_time with
  | .ok report => report
  | .error _ => generate_fallback_report prediction confidence patient_info current_time

/-! ### src/model_utils.py -/

/-- The fixed label set (model_utils.py line 7). -/
def CLASS_LABELS : List String := ["COVID", "Lung_Opacity", "Normal", "Viral Pneumonia"]

/-- Indexing `CLASS_LABELS[i]` for the four class indices. -/
def classLabel (i : Fin 4) : String := CLASS_LABELS.getD i ""

/-- Embedding of `np.argmax(predictions[0])` over the four class
probabilities: the first index attaining the maximum. -/
def argmaxIdx (p : Fin 4 → ℚ) : Fin 4 :=
  let m := max (max (p 0) (p 1)) (max (p 2) (p 3))
  if p 0 = m then 0 else if p 1 = m then 1 else if p 2 = m then 2 else 3

/-- Embedding of `predict_image` (model_utils.py lines 39-65).  The opaque
classifier output `predictions[0]` is the probability vector `p`; the result
is the tuple `(predicted_class, confidence, all_predictions)`. -/
def predict_image (p : Fin 4 → ℚ) : String × ℚ × List (String × ℚ) :=
  let predicted_class_idx := argmaxIdx p
  let predicted_class := classLabel predicted_class_idx
  let confidence := p predicted_class_idx
  let all_predictions :=
    [(classLabel 0, p 0), (classLabel 1, p 1), (classLabel 2, p 2), (classLabel 3, p 3)]
  (predicted_class, confidence, all_predictions)

/-- The static per-label part of an interpretation (description, urgency,
color, icon). -/
structure InterpBase where
  description : String
  urgency : String
  color : String
  icon : String
deriving DecidableEq

/-- The interpretation returned by `get_prediction_interpretation`: the base
entry plus the raw confidence and the derived confidence tier. -/
structure Interpretation where
  description : String
  urgency : String
  color : String
  icon : String
  confidence : ℚ
  confidence_level : String
deriving DecidableEq

/-- Embedding of `get_prediction_interpretation` (model_utils.py lines
114-162), including the fixed confidence-tier thresholds of line 160. -/
def get_prediction_interpretation (predicted_class : String) (confidence : ℚ) :
    Interpretation :=
  let interpretations : List (String × InterpBase) :=
    [("COVID", ⟨"COVID-19 pneumonia detected", "High", "red", "🦠"⟩),
     ("Viral Pneumonia", ⟨"Viral pneumonia detected", "High", "orange", "🫁"⟩),
     ("Lung_Opacity", ⟨"Lung opacities detected", "Medium", "yellow", "⚠️"⟩),
     ("Normal", ⟨"No abnormalities detected", "Low", "green", "✅"⟩)]
  let base_info :=
    (interpretations.lookup predicted_class).getD
      ⟨"Unknown condition", "Unknown", "gray", "❓"⟩
  { description := base_info.description
    urgency := base_info.urgency
    color := base_info.color
    icon := base_info.icon
    confidence := confidence
    confidence_level :=
      if confidence > 0.8 then "High"
      else if confidence > 0.6 then "Medium"
      else "Low" }

/-! ### src/image_processor.py and app.py -/

/-- The data of a decoded PIL image that validation inspects. -/
structure PILImage where
  width : ℕ
  height : ℕ
  mode : String
deriving DecidableEq

/-- Result record of `validate_image`. -/
structure ValidationResult where
  is_valid : Bool
  message : String
deriving DecidableEq

/-- Embedding of `validate_image` (image_processor.py lines 87-145). -/
def validate_image (image : PILImage) : ValidationResult :=
  if image.width < 100 ∨ image.height < 100 then
    ⟨false, "Image resolution too low. Please upload a higher quality image."⟩
  else if image.width < 224 ∧ image.height < 224 then
    ⟨true, "Image will be upscaled for analysis. Consider using higher resolution images for better results."⟩
  else if (image.width : ℚ) / image.height < 0.5 ∨ 2.0 < (image.width : ℚ) / image.height then
    ⟨true, "Unusual aspect ratio detected. Ensure the image shows a complete chest X-ray."⟩
  else if image.mode = "L" then
    ⟨true, "Grayscale X-ray image detected - suitable for analysis."⟩
  else if image.mode = "RGB" then
    ⟨true, "Color image detected - will be processed for analysis."⟩
  else
    ⟨true, "Image appears suitable for medical analysis."⟩

/-- Embedding of `display_image_info` (image_processor.py lines 39-85).
`opened` is the outcome of `Image.open` (`Except.error` when the upload is
malformed).  The first component is the returned value (`None` on an
exception); the second records whether the validation warning was shown. -/
def display_image_info (opened : Except String PILImage) : Option PILImage × Bool :=
  match opened with
  | .error _ => (none, false)
  | .ok image => (some image, !(validate_image image).is_valid)

/-- Embedding of the upload flow of `app.py` `main` (lines 60-65): prediction
runs exactly when `display_image_info` returned an image and the user clicked
the Analyze button. -/
def analysis_proceeds (opened : Except String PILImage) (clicked : Bool) : Bool :=
  ((display_image_info opened).1.isSome) && clicked

/-! ### src/pdf_utils.py -/

/-- One reportlab inch, in points. -/
def inch : ℚ := 72

/-- The image-scaling computation shared verbatim by `create_pdf_report`
(pdf_utils.py lines 114-121) and `create_simple_pdf_report` (lines 230-239):
a single uniform factor applied to width and height. -/
def scale_image (img_width img_height max_width max_height : ℚ) : ℚ × ℚ :=
  let scale := min (max_width / img_width) (max_height / img_height)
  (img_width * scale, img_height * scale)

/-- The scaled image dimensions in `create_pdf_report`, whose bounding box is
`4*inch` square. -/
def create_pdf_scaled_image (img_width img_height : ℚ) : ℚ × ℚ :=
  scale_image img_width img_height (4 * inch) (4 * inch)

/-- The scaled image dimensions in `create_simple_pdf_report`, whose bounding
box is 200 points square. -/
def create_simple_pdf_scaled_image (img_width img_height : ℚ) : ℚ × ℚ :=
  scale_image img_width img_height 200 200

/-- Search for the closing `**` of the regex `\*\*(.*?)\*\*` once an opening
`**` has been consumed: the shortest middle (non-greedy `.*?`) whose
characters are not newlines (`.` does not match a newline), together with the
text after the closing marker. -/
def scanClose : List Char → Option (List Char × List Char)
  | [] => none
  | c :: rest =>
    if c = '*' ∧ rest.head? = some '*' then some ([], rest.tail)
    else if c = '\n' then none
    else (scanClose rest).map (fun p => (c :: p.1, p.2))

theorem scanClose_length :
    ∀ cs mid r, scanClose cs = some (mid, r) → r.length < cs.length := by
  intro cs
  induction cs with
  | nil => intro mid r h; simp [scanClose] at h
  | cons c rest ih =>
    intro mid r h
    rw [scanClose] at h
    by_cases hc : c = '*' ∧ rest.head? = some '*'
    · rw [if_pos hc] at h
      have h' := Option.some.inj h
      have hr : rest.tail = r := congrArg Prod.snd h'
      subst hr
      cases rest with
      | nil => simp at hc
      | cons d ds => simp only [List.tail_cons, List.length_cons]; omega
    · rw [if_neg hc] at h
      by_cases hn : c = '\n'
      · rw [if_pos hn] at h; simp at h
      · rw [if_neg hn] at h
        simp only [Option.map_eq_some'] at h
        obtain ⟨⟨m2, r2⟩, hp, he⟩ := h
        have hlt := ih m2 r2 hp
        have hr : r2 = r := congrArg Prod.snd he
        subst hr
        simp only [List.length_cons]; omega

/-- Embedding of `re.sub(r'\*\*(.*?)\*\*', r'<b>\1</b>', text)` on the
character list of the text (pdf_utils.py lines 129-131): repeatedly find the
leftmost match of the pattern and replace it, leaving unmatched `**` markers
literal. -/
def processTextAux (cs : List Char) : List Char :=
  match cs with
  | [] => []
  | c :: rest =>
    if h : c = '*' ∧ rest.head? = some '*' then
      match hm : scanClose rest.tail with
      | some (mid, rest2) =>
          '<' :: 'b' :: '>' :: (mid ++ '<' :: '/' :: 'b' :: '>' :: processTextAux rest2)
      | none => '*' :: '*' :: processTextAux rest.tail
    else
      c :: processTextAux rest
termination_by cs.length
decreasing_by
  · have h1 := scanClose_length rest.tail mid rest2 hm
    have h2 : rest.tail.length ≤ rest.length := by
      cases rest <;> simp
    simp only [List.length_cons]; omega
  · have hne : rest ≠ [] := by
      intro he; rw [he] at h; simp at h
    cases rest with
    | nil => exact absurd rfl hne
    | cons d ds => simp only [List.tail_cons, List.length_cons]; omega
  · simp

/-- Embedding of the `process_text` helper of `create_pdf_report`. -/
def process_text (text : String) : String := String.mk (processTextAux text.data)

/-- Decides whether a character list contains the literal sequence `**`. -/
def hasStarStar : List Char → Bool
  | [] => false
  | [_] => false
  | a :: b :: rest => if a = '*' ∧ b = '*' then true else hasStarStar (b :: rest)

/-- Search for a closing `**` whose middle contains neither `*` nor a
newline, returning the text after it.  Such a close is in particular the one
`scanClose` finds. -/
def boldCleanClose : List Char → Option (List Char)
  | [] => none
  | c :: rest =>
    if c = '*' ∧ rest.head? = some '*' then some rest.tail
    else if c = '*' ∨ c = '\n' then none
    else boldCleanClose rest

theorem boldCleanClose_length :
    ∀ cs r, boldCleanClose cs = some r → r.length < cs.length := by
  intro cs
  induction cs with
  | nil => intro r h; simp [boldCleanClose] at h
  | cons c rest ih =>
    intro r h
    rw [boldCleanClose] at h
    by_cases hc : c = '*' ∧ rest.head? = some '*'
    · rw [if_pos hc] at h
      have hr : rest.tail = r := Option.some.inj h
      subst hr
      cases rest with
      | nil => simp at hc
      | cons d ds => simp only [List.tail_cons, List.length_cons]; omega
    · rw [if_neg hc] at h
      by_cases hn : c = '*' ∨ c = '\n'
      · rw [if_pos hn] at h; simp at h
      · rw [if_neg hn] at h
        have := ih r h
        simp only [List.length_cons]; omega

/-- A string has all its bold markers matched when every occurrence of `**`
opens a span that the bold regex closes: the span middle reaches a closing
`**` without crossing a newline or another `*`. -/
def boldMatched (cs : List Char) : Bool :=
  match cs with
  | [] => true
  | c :: rest =>
    if h : c = '*' ∧ rest.head? = some '*' then
      match hm : boldCleanClose rest.tail with
      | some rest2 => boldMatched rest2
      | none => false
    else boldMatched rest
termination_by cs.length
decreasing_by
  · have h1 := boldCleanClose_length rest.tail rest2 hm
    have h2 : rest.tail.length ≤ rest.length := by
      cases rest <;> simp
    simp only [List.length_cons]; omega
  · simp

theorem scanClose_of_boldCleanClose :
    ∀ l r, boldCleanClose l = some r →
      ∃ mid, scanClose l = some (mid, r) ∧ ∀ c ∈ mid, c ≠ '*' := by
  intro l
  induction l with
  | nil => intro r h; simp [boldCleanClose] at h
  | cons c rest ih =>
    intro r h
    rw [boldCleanClose] at h
    by_cases hc : c = '*' ∧ rest.head? = some '*'
    · rw [if_pos hc] at h
      have hr := Option.some.inj h
      subst hr
      exact ⟨[], by rw [scanClose, if_pos hc], by simp⟩
    · rw [if_neg hc] at h
      by_cases hn : c = '*' ∨ c = '\n'
      · rw [if_pos hn] at h; simp at h
      · rw [if_neg hn] at h
        obtain ⟨mid, hs, hm⟩ := ih r h
        push_neg at hn
        refine ⟨c :: mid, ?_, ?_⟩
        · rw [scanClose, if_neg hc, if_neg hn.2, hs]
          rfl
        · intro x hx
          rcases List.mem_cons.mp hx with rfl | hx'
          · exact hn.1
          · exact hm x hx'

theorem hasStarStar_append_of_starFree :
    ∀ (xs ys : List Char), (∀ c ∈ xs, c ≠ '*') →
      hasStarStar (xs ++ ys) = hasStarStar ys := by
  intro xs
  induction xs with
  | nil => intro ys _; rfl
  | cons c xs' ih =>
    intro ys h
    have hc : c ≠ '*' := h c (List.mem_cons_self c xs')
    cases hxy : xs' ++ ys with
    | nil =>
      have hys : ys = [] := (List.append_eq_nil.mp hxy).2
      show hasStarStar (c :: (xs' ++ ys)) = hasStarStar ys
      rw [hxy, hys]
      rfl
    | cons d rest =>
      show hasStarStar (c :: (xs' ++ ys)) = hasStarStar ys
      rw [hxy]
      show (if c = '*' ∧ d = '*' then true else hasStarStar (d :: rest)) = hasStarStar ys
      rw [if_neg (fun hand => hc hand.1), ← hxy]
      exact ih ys (fun x hx => h x (List.mem_cons_of_mem c hx))

theorem hasStarStar_cons_eq (c : Char) (l : List Char)
    (h : c ≠ '*' ∨ l.head? ≠ some '*') : hasStarStar (c :: l) = hasStarStar l := by
  cases l with
  | nil => rfl
  | cons d rest =>
    show (if c = '*' ∧ d = '*' then true else hasStarStar (d :: rest)) =
      hasStarStar (d :: rest)
    rw [if_neg]
    intro hand
    rcases h with h | h
    · exact h hand.1
    · exact h (by simp [hand.2])

theorem processTextAux_nil : processTextAux [] = [] := by
  rw [processTextAux]

theorem processTextAux_plain (c : Char) (rest : List Char)
    (hc : ¬(c = '*' ∧ rest.head? = some '*')) :
    processTextAux (c :: rest) = c :: processTextAux rest := by
  rw [processTextAux]
  rw [dif_neg hc]

theorem processTextAux_open_some (c : Char) (rest mid rest2 : List Char)
    (hc : c = '*' ∧ rest.head? = some '*')
    (hs : scanClose rest.tail = some (mid, rest2)) :
    processTextAux (c :: rest) =
      '<' :: 'b' :: '>' :: (mid ++ '<' :: '/' :: 'b' :: '>' :: processTextAux rest2) := by
  rw [processTextAux]
  rw [dif_pos hc]
  split
  · rename_i mid' rest2' heq
    rw [hs] at heq
    have h1 : mid' = mid := (congrArg Prod.fst (Option.some.inj heq)).symm
    have h2 : rest2' = rest2 := (congrArg Prod.snd (Option.some.inj heq)).symm
    rw [h1, h2]
  · rename_i heq
    rw [hs] at heq
    exact absurd heq (by simp)

theorem processTextAux_open_none (c : Char) (rest : List Char)
    (hc : c = '*' ∧ rest.head? = some '*')
    (hs : scanClose rest.tail = none) :
    processTextAux (c :: rest) = '*' :: '*' :: processTextAux rest.tail := by
  rw [processTextAux]
  rw [dif_pos hc]
  split
  · rename_i mid' rest2' heq
    rw [hs] at heq
    exact absurd heq (by simp)
  · rfl

theorem boldMatched_plain (c : Char) (rest : List Char)
    (hc : ¬(c = '*' ∧ rest.head? = some '*')) :
    boldMatched (c :: rest) = boldMatched rest := by
  rw [boldMatched]
  rw [dif_neg hc]

theorem boldMatched_open_some (c : Char) (rest rest2 : List Char)
    (hc : c = '*' ∧ rest.head? = some '*')
    (hbc : boldCleanClose rest.tail = some rest2) :
    boldMatched (c :: rest) = boldMatched rest2 := by
  rw [boldMatched]
  rw [dif_pos hc]
  split
  · rename_i rest2' heq
    rw [hbc] at heq
    rw [Option.some.inj heq]
  · rename_i heq
    rw [hbc] at heq
    exact absurd heq (by simp)

theorem boldMatched_open_none (c : Char) (rest : List Char)
    (hc : c = '*' ∧ rest.head? = some '*')
    (hbc : boldCleanClose rest.tail = none) :
    boldMatched (c :: rest) = false := by
  rw [boldMatched]
  rw [dif_pos hc]
  split
  · rename_i rest2' heq
    rw [hbc] at heq
    exact absurd heq (by simp)
  · rfl

theorem processTextAux_head_ne_star :
    ∀ cs : List Char, cs.head? ≠ some '*' →
      (processTextAux cs).head? ≠ some '*' := by
  intro cs h
  cases cs with
  | nil => simp [processTextAux]
  | cons c rest =>
    have hc : c ≠ '*' := by
      intro he
      exact h (by simp [he])
    rw [processTextAux_plain c rest (fun hand => hc hand.1)]
    simp [hc]

theorem boldMatched_no_starstar :
    ∀ (n : ℕ) (cs : List Char), cs.length ≤ n → boldMatched cs = true →
      hasStarStar (processTextAux cs) = false := by
  intro n
  induction n with
  | zero =>
    intro cs hlen _
    have hnil : cs = [] := List.length_eq_zero.mp (Nat.le_zero.mp hlen)
    subst hnil
    rw [processTextAux_nil]
    rfl
  | succ n ih =>
    intro cs hlen hb
    cases cs with
    | nil => rw [processTextAux_nil]; rfl
    | cons c rest =>
      have hrest : rest.length ≤ n := by
        simp only [List.length_cons] at hlen
        omega
      by_cases hc : c = '*' ∧ rest.head? = some '*'
      · cases hbc : boldCleanClose rest.tail with
        | none => rw [boldMatched_open_none c rest hc hbc] at hb; exact absurd hb (by simp)
        | some rest2 =>
          rw [boldMatched_open_some c rest rest2 hc hbc] at hb
          obtain ⟨mid, hs, hmid⟩ := scanClose_of_boldCleanClose rest.tail rest2 hbc
          rw [processTextAux_open_some c rest mid rest2 hc hs]
          have hP : hasStarStar (processTextAux rest2) = false := by
            have hlt := scanClose_length rest.tail mid rest2 hs
            have htail : rest.tail.length ≤ rest.length := by cases rest <;> simp
            exact ih rest2 (by omega) hb
          rw [hasStarStar_cons_eq _ _ (Or.inl (by decide)),
              hasStarStar_cons_eq _ _ (Or.inl (by decide)),
              hasStarStar_cons_eq _ _ (Or.inl (by decide)),
              hasStarStar_append_of_starFree mid _ hmid,
              hasStarStar_cons_eq _ _ (Or.inl (by decide)),
              hasStarStar_cons_eq _ _ (Or.inl (by decide)),
              hasStarStar_cons_eq _ _ (Or.inl (by decide)),
              hasStarStar_cons_eq _ _ (Or.inl (by decide))]
          exact hP
      · rw [boldMatched_plain c rest hc] at hb
        rw [processTextAux_plain c rest hc]
        by_cases hcs : c = '*'
        · have hrh : rest.head? ≠ some '*' := fun hh => hc ⟨hcs, hh⟩
          rw [hasStarStar_cons_eq c _ (Or.inr (processTextAux_head_ne_star rest hrh))]
          exact ih rest hrest hb
        · rw [hasStarStar_cons_eq c _ (Or.inl hcs)]
          exact ih rest hrest hb

/-! ### Claims -/

/-- C1: for every label, confidence and patient_info, whenever the remote
(Gemini) report path fails with any exception, `generate_report` catches it,
does not propagate it (it is a total function into `String`), and returns the
fallback-template report for that label. -/
theorem c1_remote_failure_downgraded_to_fallback :
    ∀ (env : GeminiEnv) (prediction : String) (confidence : ℚ)
      (patient_info : Option (List (String × String))) (current_time : String)
      (e : String),
      generate_gemini_report env prediction confidence patient_info current_time =
        .error e →
      generate_report env prediction confidence patient_info current_time =
        generate_fallback_report prediction confidence patient_info current_time := by
  intro env prediction confidence patient_info current_time e h
  unfold generate_report
  rw [h]

theorem c1_witness :
    generate_report ⟨false, none, fun _ => .error "network unreachable"⟩
        "COVID" (19/20) none "2024-01-01 00:00:00" =
      generate_fallback_report "COVID" (19/20) none "2024-01-01 00:00:00" :=
  c1_remote_failure_downgraded_to_fallback
    ⟨false, none, fun _ => .error "network unreachable"⟩
    "COVID" (19/20) none "2024-01-01 00:00:00"
    "google-generativeai package not installed. Please run pip install google-generativeai"
    rfl

/-- C3: the confidence tier is "High" exactly when confidence is above 0.8,
"Medium" exactly when it is above 0.6 and at most 0.8, and "Low" otherwise;
at the boundaries, 0.8 gives "Medium" and 0.6 gives "Low". -/
theorem c3_confidence_tier_boundaries :
    ∀ (predicted_class : String) (confidence : ℚ),
      ((get_prediction_interpretation predicted_class confidence).confidence_level = "High"
          ↔ confidence > 0.8) ∧
      ((get_prediction_interpretation predicted_class confidence).confidence_level = "Medium"
          ↔ 0.6 < confidence ∧ confidence ≤ 0.8) ∧
      ((get_prediction_interpretation predicted_class confidence).confidence_level = "Low"
          ↔ confidence ≤ 0.6) ∧
      (get_prediction_interpretation predicted_class 0.8).confidence_level = "Medium" ∧
      (get_prediction_interpretation predicted_class 0.6).confidence_level = "Low" := by
  intro pc conf
  have hlevel : ∀ c : ℚ, (get_prediction_interpretation pc c).confidence_level =
      if c > 0.8 then "High" else if c > 0.6 then "Medium" else "Low" := fun c => rfl
  refine ⟨?_, ?_, ?_, ?_, ?_⟩
  · rw [hlevel]
    split_ifs with h1 h2
    · exact iff_of_true rfl h1
    · exact iff_of_false (by decide) h1
    · exact iff_of_false (by decide) h1
  · rw [hlevel]
    split_ifs with h1 h2
    · exact iff_of_false (by decide) (fun hc => absurd h1 (not_lt.mpr hc.2))
    · exact iff_of_true rfl ⟨h2, not_lt.mp h1⟩
    · exact iff_of_false (by decide) (fun hc => absurd hc.1 h2)
  · rw [hlevel]
    split_ifs with h1 h2
    · exact iff_of_false (by decide)
        (fun hc => absurd h1 (not_lt.mpr (hc.trans (by norm_num))))
    · exact iff_of_false (by decide) (fun hc => absurd h2 (not_lt.mpr hc))
    · exact iff_of_true rfl (not_lt.mp h2)
  · rw [hlevel]; norm_num
  · rw [hlevel]; norm_num

/-- C7 counterexample: a 50 x 50 upload is below the minimum resolution and
is marked invalid, yet the app still runs the analysis when the user clicks
Analyze, contradicting the claim that no prediction is made on it. -/
theorem c7_counterexample_small_image_still_analyzed :
    (validate_image ⟨50, 50, "L"⟩).is_valid = false ∧
    analysis_proceeds (.ok ⟨50, 50, "L"⟩) true = true := by
  exact ⟨rfl, rfl⟩

/-- C7 (amended): a malformed upload is reported and analysis never proceeds
on it, and an upload with either dimension below the minimum resolution is
reported to the user with a warning (validation marks it invalid), but
analysis is not blocked for it. -/
theorem c7_input_error_handling :
    ∀ (image : PILImage) (e : String) (clicked : Bool),
      ((image.width < 100 ∨ image.height < 100) →
        (validate_image image).is_valid = false ∧
        (display_image_info (.ok image)).2 = true) ∧
      analysis_proceeds (.error e) clicked = false := by
  intro image e clicked
  constructor
  · intro h
    have hv : validate_image image =
        ⟨false, "Image resolution too low. Please upload a higher quality image."⟩ := by
      unfold validate_image; rw [if_pos h]
    constructor
    · rw [hv]
    · show (!(validate_image image).is_valid) = true
      rw [hv]
      rfl
  · simp [analysis_proceeds, display_image_info]

theorem c7_witness :
    ((validate_image ⟨64, 600, "RGB"⟩).is_valid = false ∧
      (display_image_info (.ok ⟨64, 600, "RGB"⟩)).2 = true) ∧
    analysis_proceeds (.error "cannot identify image file") false = false :=
  ⟨(c7_input_error_handling ⟨64, 600, "RGB"⟩ "cannot identify image file" false).1
      (Or.inl (by decide)),
   (c7_input_error_handling ⟨64, 600, "RGB"⟩ "cannot identify image file" false).2⟩

theorem append_left_ne_empty (a b : String) (h : a ≠ "") : a ++ b ≠ "" := by
  intro he
  apply h
  have hd := congrArg String.data he
  rw [String.data_append] at hd
  exact String.ext (List.append_eq_nil.mp hd).1

theorem infix_mid (A p l3 t : List Char) : p <:+: ((A ++ p) ++ l3) ++ t :=
  ((List.suffix_append A p).isInfix).trans
    (((List.prefix_append (A ++ p) l3).trans
        (List.prefix_append ((A ++ p) ++ l3) t)).isInfix)

/-- C2: for every label in the closed set and every confidence, whenever the
remote path fails, `generate_report label confidence None` returns (it is a
total function, so it never raises) a non-empty string containing the
confidence rendered as a percentage rounded to one decimal place. -/
theorem c2_closed_set_report_nonempty_with_percent :
    ∀ (label : String),
      label ∈ (["COVID", "Viral Pneumonia", "Lung_Opacity", "Normal"] : List String) →
      ∀ (confidence : ℚ) (current_time : String) (env : GeminiEnv) (e : String),
        generate_gemini_report env label confidence none current_time = .error e →
        generate_report env label confidence none current_time ≠ "" ∧
        (formatPercent confidence).data <:+:
          (generate_report env label confidence none current_time).data := by
  intro label hmem confidence current_time env e h
  have hrep : generate_report env label confidence none current_time =
      generate_fallback_report label confidence none current_time := by
    unfold generate_report; rw [h]
  rw [hrep]
  simp only [List.mem_cons, List.not_mem_nil, or_false] at hmem
  rcases hmem with rfl | rfl | rfl | rfl <;>
    (constructor
     · simp only [generate_fallback_report, List.lookup]
       exact append_left_ne_empty _ _ (append_left_ne_empty _ _
         (append_left_ne_empty _ _ (append_left_ne_empty _ _
           (append_left_ne_empty _ _ (by decide)))))
     · simp only [generate_fallback_report, List.lookup, String.data_append]
       exact infix_mid _ _ _ _)

theorem c2_witness :
    generate_report ⟨false, none, fun _ => .error "no network"⟩ "Normal" (19/20) none
        "2024-01-01 00:00:00" ≠ "" ∧
    (formatPercent (19/20)).data <:+:
      (generate_report ⟨false, none, fun _ => .error "no network"⟩ "Normal" (19/20)
          none "2024-01-01 00:00:00").data :=
  c2_closed_set_report_nonempty_with_percent "Normal" (by decide) (19/20)
    "2024-01-01 00:00:00" ⟨false, none, fun _ => .error "no network"⟩
    "google-generativeai package not installed. Please run pip install google-generativeai"
    rfl

/-- C9: document assembly scales an image by the single uniform factor
min(maxWidth/w, maxHeight/h) applied to both dimensions, preserving the
aspect ratio; a 400 x 100 image scaled into the 200 x 200 box of
`create_simple_pdf_report` becomes 200 x 50. -/
theorem c9_uniform_scale_preserves_aspect :
    ∀ (img_width img_height : ℚ), 0 < img_width → 0 < img_height →
      (∀ max_width max_height : ℚ,
        scale_image img_width img_height max_width max_height =
          (img_width * min (max_width / img_width) (max_height / img_height),
           img_height * min (max_width / img_width) (max_height / img_height))) ∧
      (∀ max_width max_height : ℚ, 0 < max_width → 0 < max_height →
        (scale_image img_width img_height max_width max_height).1 /
            (scale_image img_width img_height max_width max_height).2 =
          img_width / img_height) ∧
      create_simple_pdf_scaled_image 400 100 = (200, 50) := by
  intro w h hw hh
  refine ⟨fun mw mh => rfl, fun mw mh hmw hmh => ?_, ?_⟩
  · have hs : 0 < min (mw / w) (mh / h) := lt_min (div_pos hmw hw) (div_pos hmh hh)
    show w * min (mw / w) (mh / h) / (h * min (mw / w) (mh / h)) = w / h
    rw [mul_div_mul_right _ _ (ne_of_gt hs)]
  · show scale_image 400 100 200 200 = (200, 50)
    unfold scale_image
    norm_num [min_def]

theorem anyTruthy_eq_false_iff (pi : List (String × String)) :
    anyTruthy pi = false ↔ ∀ kv ∈ pi, kv.2 = "" := by
  induction pi with
  | nil => simp [anyTruthy]
  | cons kv rest ih =>
    cases kv with
    | mk k v => simp [anyTruthy, ih, bne_eq_false_iff_eq]

theorem contextLines_eq (pi : List (String × String)) :
    contextLines pi =
      (pi.filter (fun kv => !(kv.2 == ""))).map
        (fun kv => "- " ++ kv.1 ++ ": " ++ kv.2) := by
  induction pi with
  | nil => rfl
  | cons kv rest ih =>
    cases kv with
    | mk k v =>
      by_cases hv : v = ""
      · simp [contextLines, hv, List.filter_cons, ih]
      · simp [contextLines, hv, List.filter_cons, ih]

/-- C4: the patient-context block is the literal "Not provided" marker when
the mapping is absent or all its values are empty; otherwise it is the header
followed by exactly one line "- field: value" for each field with a non-empty
value, in insertion order, with empty-valued fields omitted. -/
theorem c4_patient_context_block :
    build_patient_context none = "PATIENT INFORMATION: Not provided" ∧
    ∀ pi : List (String × String),
      ((∀ kv ∈ pi, kv.2 = "") →
        build_patient_context (some pi) = "PATIENT INFORMATION: Not provided") ∧
      ((∃ kv ∈ pi, kv.2 ≠ "") →
        build_patient_context (some pi) =
          String.intercalate "\n" ("PATIENT INFORMATION:" ::
            (pi.filter (fun kv => !(kv.2 == ""))).map
              (fun kv => "- " ++ kv.1 ++ ": " ++ kv.2))) := by
  refine ⟨rfl, fun pi => ⟨?_, ?_⟩⟩
  · intro h
    show (if anyTruthy pi = false then "PATIENT INFORMATION: Not provided"
      else String.intercalate "\n" ("PATIENT INFORMATION:" :: contextLines pi)) =
      "PATIENT INFORMATION: Not provided"
    rw [if_pos ((anyTruthy_eq_false_iff pi).mpr h)]
  · intro h
    show (if anyTruthy pi = false then "PATIENT INFORMATION: Not provided"
      else String.intercalate "\n" ("PATIENT INFORMATION:" :: contextLines pi)) = _
    have ht : anyTruthy pi = true := by
      rcases h with ⟨kv, hm, hne⟩
      cases ha : anyTruthy pi
      · exact absurd ((anyTruthy_eq_false_iff pi).mp ha kv hm) hne
      · rfl
    rw [ht, if_neg (by decide : ¬ (true = false)), contextLines_eq]

theorem c4_witness :
    build_patient_context (some [("Age", "34"), ("Gender", "")]) =
        "PATIENT INFORMATION:\n- Age: 34" ∧
    build_patient_context (some [("Patient ID", ""), ("Gender", "")]) =
        "PATIENT INFORMATION: Not provided" :=
  ⟨((c4_patient_context_block.2 [("Age", "34"), ("Gender", "")]).2
      ⟨("Age", "34"), by decide, by decide⟩).trans (by decide),
   (c4_patient_context_block.2 [("Patient ID", ""), ("Gender", "")]).1 (by decide)⟩

/-- For a label outside the template table, the fallback report is the
diagnostic string naming the label. -/
theorem fallback_unknown_eq (label : String)
    (h1 : label ≠ "COVID") (h2 : label ≠ "Viral Pneumonia")
    (h3 : label ≠ "Lung_Opacity") (h4 : label ≠ "Normal")
    (confidence : ℚ) (patient_info : Option (List (String × String)))
    (current_time : String) :
    generate_fallback_report label confidence patient_info current_time =
      "Report generation error for condition: " ++ label := by
  have e1 : (label == "COVID") = false := beq_eq_false_iff_ne.mpr h1
  have e2 : (label == "Viral Pneumonia") = false := beq_eq_false_iff_ne.mpr h2
  have e3 : (label == "Lung_Opacity") = false := beq_eq_false_iff_ne.mpr h3
  have e4 : (label == "Normal") = false := beq_eq_false_iff_ne.mpr h4
  simp only [generate_fallback_report, List.lookup, e1, e2, e3, e4]

/-- C5 counterexample: for the out-of-table label "Bacterial Infection" the
fallback report is the diagnostic string, not the "Normal" fallback template,
so the claim that an unknown label reuses the Normal fallback template fails. -/
theorem c5_counterexample_fallback_is_not_normal_template :
    generate_fallback_report "Bacterial Infection" (1/2) none "2024-01-01 00:00:00" ≠
      generate_fallback_report "Normal" (1/2) none "2024-01-01 00:00:00" := by
  intro h
  have h2 := congrArg (fun s => s.data.head?) h
  have hL : (generate_fallback_report "Bacterial Infection" (1/2) none
      "2024-01-01 00:00:00").data.head? = some 'R' := rfl
  have hR : (generate_fallback_report "Normal" (1/2) none
      "2024-01-01 00:00:00").data.head? = some 'C' := rfl
  simp only [hL, hR] at h2
  exact absurd (Option.some.inj h2) (by decide)

/-- C5 (amended): a label outside the guidance table uses the "Normal" entry
for the remote-prompt guidance, while the fallback report for such a label is
the diagnostic string naming it (not the Normal fallback template). -/
theorem c5_unknown_label_defaults :
    ∀ (label : String),
      label ∉ (["COVID", "Viral Pneumonia", "Lung_Opacity", "Normal"] : List String) →
      get_condition_guidance label = get_condition_guidance "Normal" ∧
      ∀ (confidence : ℚ) (patient_info : Option (List (String × String)))
        (current_time : String),
        generate_fallback_report label confidence patient_info current_time =
          "Report generation error for condition: " ++ label := by
  intro label h
  simp only [List.mem_cons, List.not_mem_nil, or_false, not_or] at h
  obtain ⟨h1, h2, h3, h4⟩ := h
  have e1 : (label == "COVID") = false := beq_eq_false_iff_ne.mpr h1
  have e2 : (label == "Viral Pneumonia") = false := beq_eq_false_iff_ne.mpr h2
  have e3 : (label == "Lung_Opacity") = false := beq_eq_false_iff_ne.mpr h3
  have e4 : (label == "Normal") = false := beq_eq_false_iff_ne.mpr h4
  constructor
  · show get_condition_guidance label = get_condition_guidance "Normal"
    have hN : get_condition_guidance "Normal" = normalGuidance := rfl
    rw [hN]
    simp only [get_condition_guidance, List.lookup, e1, e2, e3, e4, Option.getD_none]
  · exact fun confidence patient_info current_time =>
      fallback_unknown_eq label h1 h2 h3 h4 confidence patient_info current_time

theorem c5_witness :
    get_condition_guidance "Bacterial Infection" = get_condition_guidance "Normal" ∧
    generate_fallback_report "Bacterial Infection" (1/2) none "2024-01-01 00:00:00" =
      "Report generation error for condition: " ++ "Bacterial Infection" :=
  ⟨(c5_unknown_label_defaults "Bacterial Infection" (by decide)).1,
   (c5_unknown_label_defaults "Bacterial Infection" (by decide)).2
     (1/2) none "2024-01-01 00:00:00"⟩

/-- C6: for every label outside the closed label set and every confidence and
patient_info, fallback report generation returns a diagnostic string that
contains the label verbatim (and it is the exact diagnostic string). -/
theorem c6_unknown_label_diagnostic_contains_label :
    ∀ (label : String),
      label ∉ (["COVID", "Viral Pneumonia", "Lung_Opacity", "Normal"] : List String) →
      ∀ (confidence : ℚ) (patient_info : Option (List (String × String)))
        (current_time : String),
        generate_fallback_report label confidence patient_info current_time =
          "Report generation error for condition: " ++ label ∧
        label.data <:+:
          (generate_fallback_report label confidence patient_info current_time).data := by
  intro label h confidence patient_info current_time
  simp only [List.mem_cons, List.not_mem_nil, or_false, not_or] at h
  obtain ⟨h1, h2, h3, h4⟩ := h
  have he := fallback_unknown_eq label h1 h2 h3 h4 confidence patient_info current_time
  refine ⟨he, ?_⟩
  rw [he, String.data_append]
  exact (List.suffix_append _ _).isInfix

theorem c6_witness :
    generate_fallback_report "Pneumothorax" (3/4) none "2024-01-01 00:00:00" =
        "Report generation error for condition: " ++ "Pneumothorax" ∧
    "Pneumothorax".data <:+:
      (generate_fallback_report "Pneumothorax" (3/4) none "2024-01-01 00:00:00").data :=
  c6_unknown_label_diagnostic_contains_label "Pneumothorax" (by decide)
    (3/4) none "2024-01-01 00:00:00"

theorem le_max4 (p : Fin 4 → ℚ) (i : Fin 4) :
    p i ≤ max (max (p 0) (p 1)) (max (p 2) (p 3)) := by
  fin_cases i
  · exact le_max_of_le_left (le_max_left _ _)
  · exact le_max_of_le_left (le_max_right _ _)
  · exact le_max_of_le_right (le_max_left _ _)
  · exact le_max_of_le_right (le_max_right _ _)

theorem argmax_attains (p : Fin 4 → ℚ) :
    p (argmaxIdx p) = max (max (p 0) (p 1)) (max (p 2) (p 3)) := by
  simp only [argmaxIdx]
  split_ifs with h0 h1 h2
  · exact h0
  · exact h1
  · exact h2
  · rcases max_choice (max (p 0) (p 1)) (max (p 2) (p 3)) with h | h
    · rcases max_choice (p 0) (p 1) with h' | h'
      · exact absurd (h.trans h').symm h0
      · exact absurd (h.trans h').symm h1
    · rcases max_choice (p 2) (p 3) with h' | h'
      · exact absurd (h.trans h').symm h2
      · exact (h.trans h').symm

/-- C10: the three components of `predict_image` are mutually consistent:
the distribution maps exactly the four class labels to their probabilities,
the label is the class attaining the maximum probability (the first argmax),
and the confidence equals the distribution value at the returned label, which
is the maximum of all distribution values. -/
theorem c10_predict_image_consistency :
    ∀ p : Fin 4 → ℚ,
      (predict_image p).2.2 =
        [("COVID", p 0), ("Lung_Opacity", p 1), ("Normal", p 2),
         ("Viral Pneumonia", p 3)] ∧
      (predict_image p).1 = classLabel (argmaxIdx p) ∧
      (predict_image p).2.1 = p (argmaxIdx p) ∧
      (∀ i : Fin 4, p i ≤ (predict_image p).2.1) ∧
      ((predict_image p).2.2).lookup (predict_image p).1 =
        some ((predict_image p).2.1) := by
  intro p
  refine ⟨rfl, rfl, rfl, ?_, ?_⟩
  · intro i
    show p i ≤ p (argmaxIdx p)
    rw [argmax_attains p]
    exact le_max4 p i
  · have hlook : ∀ j : Fin 4,
        ([(classLabel 0, p 0), (classLabel 1, p 1), (classLabel 2, p 2),
          (classLabel 3, p 3)] : List (String × ℚ)).lookup (classLabel j) =
          some (p j) := by
      intro j
      fin_cases j <;> rfl
    exact hlook (argmaxIdx p)

/-- C8: the markdown-bold transform of document assembly converts every
matched pair of bold markers, so a report whose bold markers are all matched
has no literal `**` left after the transform; an unmatched opening marker is
left literal; and the transform is a total function, so it never raises. -/
theorem c8_bold_marker_transform :
    ∀ s : String,
      (boldMatched s.data = true → hasStarStar ((process_text s).data) = false) ∧
      (scanClose s.data = none →
        processTextAux ('*' :: '*' :: s.data) = '*' :: '*' :: processTextAux s.data) := by
  intro s
  constructor
  · intro hb
    exact boldMatched_no_starstar s.data.length s.data le_rfl hb
  · intro hs
    exact processTextAux_open_none '*' ('*' :: s.data) ⟨rfl, rfl⟩ hs

theorem c8_witness :
    hasStarStar ((process_text "REPORT with **bold** text").data) = false ∧
    processTextAux ('*' :: '*' :: "no closing marker".data) =
      '*' :: '*' :: processTextAux "no closing marker".data :=
  ⟨(c8_bold_marker_transform "REPORT with **bold** text").1
      (by simp [boldMatched, boldCleanClose]),
   (c8_bold_marker_transform "no closing marker").2 (by decide)⟩

theorem c9_witness :
    (scale_image 400 100 200 200).1 / (scale_image 400 100 200 200).2 =
        (400 : ℚ) / 100 ∧
    create_simple_pdf_scaled_image 400 100 = (200, 50) :=
  ⟨((c9_uniform_scale_preserves_aspect 400 100 (by norm_num) (by norm_num)).2.1
      200 200 (by norm_num) (by norm_num)),
   (c9_uniform_scale_preserves_aspect 400 100 (by norm_num) (by norm_num)).2.2⟩

end MedReport
